import Mathlib

/-!
Verification of the EventPipe core (`src/native/eventpipe/ep.c`)

This file gives a shallow embedding of the session registry, the
enable/disable lifecycle, the deferred startup queues, the provider
configuration parser, the `{pid}` output-path substitution, and the
writer/disable quiescence handshake of the EventPipe tracing engine,
and proves the claims of the specification against it.

Conventions:
* C strings are `List Char`; a null pointer is `Option.none`; the string
  terminator `'\0'` is the end of the list.
* Machine integers are `Nat` with explicit clamping where the C clamps.
* External collaborators (ep-session.c, ep-config.c, libc, the runtime
  shim `ep-rt`) are modelled from the specification where noted; every
  definition otherwise mirrors a function of `ep.c`, named after it.
-/

namespace EventPipe

/-- `UINT64_MAX`, the sentinel returned by `get_next_config_value_as_uint64_t`
for an absent value, and the clamp of `strtoull`. -/
def UINT64_MAX : Nat := 2 ^ 64 - 1

/-- `UINT32_MAX`, the sentinel returned by `get_next_config_value_as_uint32_t`
for an absent value, and the clamp of `strtoul`. -/
def UINT32_MAX : Nat := 2 ^ 32 - 1

/-- `EP_MAX_NUMBER_OF_SESSIONS`: the registry holds 64 slots (one bit of the
`_ep_allow_write` uint64 bitmask per slot). -/
def EP_MAX_NUMBER_OF_SESSIONS : Nat := 64

/-- `EP_EVENT_LEVEL_VERBOSE` (= 5), the most-verbose level and the initializer
of the `level` local in the `ep_enable_2` parse loop. -/
def EP_EVENT_LEVEL_VERBOSE : Nat := 5

/-- `EP_SERIALIZATION_FORMAT_COUNT`: the two known serialization formats are
`NETPERF_V3` (0) and `NETTRACE_V4` (1); formats are modelled as raw `Nat`. -/
def EP_SERIALIZATION_FORMAT_COUNT : Nat := 2

/-- `EventPipeSessionType` (ep-types.h), as tested by `check_options_valid`. -/
inductive EventPipeSessionType
  | file
  | fileStream
  | ipcStream
  | listener
  | userEvents
deriving DecidableEq, Repr

/-!
Provider configuration parser (ep.c: `get_next_config_value*`, `ep_enable_2`)
-/

/-- One parsed provider configuration, mirroring the fields of
`EventPipeProviderConfiguration` as set by `ep_provider_config_init`
(ep.c:400-426): name, keyword mask, logging level, filter/args string.
A `none` name or filter models a NULL `char *`. -/
structure EventPipeProviderConfiguration where
  provider_name : Option (List Char)
  keywords : Nat
  logging_level : Nat
  filter_data : Option (List Char)
deriving DecidableEq, Repr

/-- Mirrors `get_next_config_value` (ep.c:862-882): scan from `data` until
`'\0'`, `','` or `':'`; the scanned range is the field value; the returned
pointer is NULL at the terminator (`none`), points at the `','` when a comma
stops the scan, and past the `':'` when a colon does. -/
def get_next_config_value (data : List Char) : List Char × Option (List Char) :=
  let value := data.takeWhile fun c => !(c == ',' || c == ':')
  let rest := data.dropWhile fun c => !(c == ',' || c == ':')
  match rest with
  | [] => (value, none)
  | c :: tail => if c = ',' then (value, some (c :: tail)) else (value, some tail)

/-- Mirrors `get_next_config_value_as_utf8_string` (ep.c:884-901): the field
value as a fresh string, NULL (`none`) when the field is empty. -/
def get_next_config_value_as_utf8_string (data : List Char) :
    Option (List Char) × Option (List Char) :=
  let (value, rest) := get_next_config_value data
  (if value = [] then none else some value, rest)

/-- Hexadecimal digit value of a character, if any. -/
def hexDigitVal (c : Char) : Option Nat :=
  if '0' ≤ c ∧ c ≤ '9' then some (c.toNat - 48)
  else if 'a' ≤ c ∧ c ≤ 'f' then some (c.toNat - 87)
  else if 'A' ≤ c ∧ c ≤ 'F' then some (c.toNat - 55)
  else none

/-- Decimal digit value of a character, if any. -/
def decDigitVal (c : Char) : Option Nat :=
  if '0' ≤ c ∧ c ≤ '9' then some (c.toNat - 48) else none

/-- Accumulate leading digits of `s` in the given base, stopping at the first
non-digit (as `strtoull`/`strtoul` do). -/
def parseDigitsAcc (digitVal : Char → Option Nat) (base : Nat) :
    List Char → Nat → Nat
  | [], acc => acc
  | c :: t, acc =>
    match digitVal c with
    | some v => parseDigitsAcc digitVal base t (acc * base + v)
    | none => acc

/-- Strip an optional `0x`/`0X` radix marker, as `strtoull(_, _, 16)` does. -/
def strip0x : List Char → List Char
  | '0' :: 'x' :: t => t
  | '0' :: 'X' :: t => t
  | s => s

/-- Modelled from the spec: `strtoull (value, NULL, 16)` from libc (not part of
src). The spec says `Keywords` "parses as an unsigned 64-bit hexadecimal
mask"; leading hex digits (after an optional `0x`) are accumulated and the
result saturates at `UINT64_MAX` as `strtoull` does on overflow. -/
def strtoull_16 (s : List Char) : Nat :=
  min (parseDigitsAcc hexDigitVal 16 (strip0x s) 0) UINT64_MAX

/-- Modelled from the spec: `strtoul (value, NULL, 10)` from libc (not part of
src). The spec says `Level` "parses as an unsigned 32-bit decimal"; leading
decimal digits are accumulated and the result saturates at `UINT32_MAX`. -/
def strtoul_10 (s : List Char) : Nat :=
  min (parseDigitsAcc decDigitVal 10 s 0) UINT32_MAX

/-- Mirrors `get_next_config_value_as_uint64_t` (ep.c:903-917): `UINT64_MAX`
when the field is empty (NULL string), otherwise `strtoull(_, NULL, 16)`. -/
def get_next_config_value_as_uint64_t (data : List Char) : Nat × Option (List Char) :=
  let (value_as_utf8, rest) := get_next_config_value_as_utf8_string data
  match value_as_utf8 with
  | none => (UINT64_MAX, rest)
  | some s => (strtoull_16 s, rest)

/-- Mirrors `get_next_config_value_as_uint32_t` (ep.c:919-933): `UINT32_MAX`
when the field is empty (NULL string), otherwise `strtoul(_, NULL, 10)`. -/
def get_next_config_value_as_uint32_t (data : List Char) : Nat × Option (List Char) :=
  let (value_as_utf8, rest) := get_next_config_value_as_utf8_string data
  match value_as_utf8 with
  | none => (UINT32_MAX, rest)
  | some s => (strtoul_10 s, rest)

/-- Mirrors the guard `providers_config_to_parse && *providers_config_to_parse != ','`
used ahead of each field read in the `ep_enable_2` parse loop: false for a NULL
pointer, true at the terminator (`'\0' != ','`), otherwise the head comparison. -/
def config_ptr_not_comma : Option (List Char) → Bool
  | none => false
  | some [] => true
  | some (c :: _) => c != ','

/-- One guarded field read of the `ep_enable_2` parse loop:
`if (providers_config_to_parse && *providers_config_to_parse != ',')
  x = read (&providers_config_to_parse);` with `x` initialized to `dflt`. -/
def readConfigField {α : Type} (read : List Char → α × Option (List Char)) (dflt : α)
    (p : Option (List Char)) : α × Option (List Char) :=
  match p with
  | none => (dflt, none)
  | some [] => read []
  | some (c :: t) => if c = ',' then (dflt, some (c :: t)) else read (c :: t)

/-- Mirrors one iteration of the `ep_enable_2` parse loop body (ep.c:1104-1126):
the four colon-separated fields `Name:Keywords:Level:Args` are read under the
pointer/comma guard, with initializers `NULL`, `0`, `EP_EVENT_LEVEL_VERBOSE`,
`NULL`; an empty `Name` field fails the whole parse
(`ep_raise_error_if_nok (provider_name != NULL)`). Returns the entry and the
pointer left after the `Args` field. -/
def ep_enable_2_parse_entry (data : List Char) :
    Option (EventPipeProviderConfiguration × Option (List Char)) :=
  let (provider_name, p1) :=
    readConfigField get_next_config_value_as_utf8_string none (some data)
  if config_ptr_not_comma (some data) ∧ provider_name = none then none
  else
    let (keyword_mask, p2) := readConfigField get_next_config_value_as_uint64_t 0 p1
    let (level, p3) :=
      readConfigField get_next_config_value_as_uint32_t EP_EVENT_LEVEL_VERBOSE p2
    let (args, p4) := readConfigField get_next_config_value_as_utf8_string none p3
    some ({ provider_name := provider_name, keywords := keyword_mask,
            logging_level := level, filter_data := args }, p4)

/-- Mirrors the `ep_enable_2` parse loop (ep.c:1104-1136): parse entries while
the pointer is non-NULL and not at the terminator; after each entry skip ahead
to the next `','` and past it. Structured as fuel recursion; every iteration
consumes at least one character, so `length + 1` fuel (as supplied by
`ep_enable_2_providers`) never runs out. -/
def ep_enable_2_parse : Nat → List Char → Option (List EventPipeProviderConfiguration)
  | _, [] => some []
  | 0, _ :: _ => none
  | fuel + 1, c :: t =>
    match ep_enable_2_parse_entry (c :: t) with
    | none => none
    | some (cfg, p4) =>
      match p4 with
      | none => some [cfg]
      | some d =>
        let d1 := d.dropWhile (· != ',')
        let d2 := match d1 with
          | [] => []
          | _ :: tail => tail
        (ep_enable_2_parse fuel d2).map (cfg :: ·)

/-- Modelled from the spec: the well-known provider name returned by
`ep_config_get_public_provider_name_utf8` (ep-config, not part of src); the
spec calls it one of the "two well-known runtime providers". -/
def public_provider_name : List Char := "Microsoft-Windows-DotNETRuntime".toList

/-- Modelled from the spec: the well-known provider name returned by
`ep_config_get_private_provider_name_utf8` (ep-config, not part of src). -/
def private_provider_name : List Char := "Microsoft-Windows-DotNETRuntimePrivate".toList

/-- Modelled from the spec: the well-known provider name returned by
`ep_config_get_sample_profiler_provider_name_utf8` (ep-config, not part of
src); the spec calls it "the sampling-profiler provider". -/
def sample_profiler_provider_name : List Char :=
  "Microsoft-DotNETCore-SampleProfiler".toList

/-- The default 3-provider set built by `ep_enable_2` for an absent or empty
config string (ep.c:1079-1087). -/
def default_provider_configs : List EventPipeProviderConfiguration :=
  [ { provider_name := some public_provider_name, keywords := 0x4c14fccbd,
      logging_level := EP_EVENT_LEVEL_VERBOSE, filter_data := none },
    { provider_name := some private_provider_name, keywords := 0x4002000b,
      logging_level := EP_EVENT_LEVEL_VERBOSE, filter_data := none },
    { provider_name := some sample_profiler_provider_name, keywords := 0x0,
      logging_level := EP_EVENT_LEVEL_VERBOSE, filter_data := none } ]

/-- Mirrors the provider-array construction of `ep_enable_2` (ep.c:1077-1137):
a NULL or empty config string yields the default provider set, otherwise the
comma-separated entries are parsed; `none` models the parse failing the whole
call (`ep_on_error`). -/
def ep_enable_2_providers (providers_config : List Char) :
    Option (List EventPipeProviderConfiguration) :=
  if providers_config = [] then some default_provider_configs
  else ep_enable_2_parse (providers_config.length + 1) providers_config

/-!
The session registry and its lifecycle (ep.c globals, `enable`, `disable_*`)
-/

/-- `EventPipeSessionID`: the session's handle, the storage address cast to an
integer; 0 is the reserved null handle. -/
abbrev EventPipeSessionID := Nat

/-- The slice of `EventPipeSession` (ep-session.h) that ep.c reads: the handle,
the slot index chosen at allocation, the rundown keyword, the session provider
names (for `session_requested_sampling`), and the session type. -/
structure EventPipeSession where
  id : EventPipeSessionID
  index : Nat
  rundown_keyword : Nat
  provider_names : List (List Char)
  session_type : EventPipeSessionType
deriving DecidableEq, Repr

/-- Mirrors `EventPipeSessionOptions` (ep.h) as consumed by
`check_options_valid` and `enable`; pointers are `Option`s. -/
structure EventPipeSessionOptions where
  output_path : Option (List Char)
  circular_buffer_size_in_mb : Nat
  providers : Option (List EventPipeProviderConfiguration)
  providers_len : Nat
  session_type : EventPipeSessionType
  format : Nat
  rundown_keyword : Nat
  stackwalk_requested : Bool
  stream : Option Unit
  user_events_data_fd : Int
deriving DecidableEq, Repr

/-- `EventPipeState` (`_ep_state`). -/
inductive EventPipeState
  | notInitialized
  | initialized
  | shuttingDown
deriving DecidableEq, Repr

/-- The global state of ep.c: `_ep_state`, `_ep_number_of_sessions`,
`_ep_sessions`, `_ep_allow_write`, `_ep_can_start_threads`, the two deferred
session-id vectors, the result of the IPC stream factory's suspended-ports
callback (external code behind `ipc_stream_factory_any_suspended_ports`), and
a monotone counter modelling allocation freshness for session handles. -/
structure EPGlobalState where
  ep_state : EventPipeState
  number_of_sessions : Nat
  sessions : Nat → Option EventPipeSession
  allow_write : Nat
  can_start_threads : Bool
  deferred_enable_session_ids : List EventPipeSessionID
  deferred_disable_session_ids : List EventPipeSessionID
  ipc_suspended_ports : Bool
  next_session_handle : Nat

/-- The observable steps taken by the lifecycle routines: calls out of ep.c
into the session/config/profiler collaborators, the registry mutations, and
debug assertion failures (`EP_ASSERT` with a false condition). -/
inductive EPAction
  | sampleProfilerDisable
  | logProcessInfoEvent
  | configEnableDisable (enable : Bool)
  | sessionDisable
  | sessionEnableRundown
  | setRundownThread (set : Bool)
  | executeRundown
  | clearAllowWriteBit
  | nullSessionSlot
  | suspendWriteEvent
  | writeAllBuffersToFile
  | decrementSessionCount
  | writeSequencePoint
  | sessionDecRef
  | sessionStartStreaming (id : EventPipeSessionID)
  | sampleProfilerEnable
  | sampleProfilerInit
  | sampleProfilerCanStartSampling
  | eventSourceEnable
  | assertFailed
deriving DecidableEq, Repr

/-- Mirrors `check_options_valid` (ep.c:514-531) as the C's chain of early
`return false`s. `uses_buffer_manager` abstracts
`ep_session_type_uses_buffer_manager` (ep-session.h, not part of src). -/
def check_options_valid (uses_buffer_manager : EventPipeSessionType → Bool)
    (options : EventPipeSessionOptions) : Bool :=
  if options.format ≥ EP_SERIALIZATION_FORMAT_COUNT then false
  else if options.circular_buffer_size_in_mb = 0 ∧
      uses_buffer_manager options.session_type = true then false
  else if options.providers = none ∨ options.providers_len = 0 then false
  else if (options.session_type = .file ∨ options.session_type = .fileStream) ∧
      options.output_path = none then false
  else if options.session_type = .ipcStream ∧ options.stream = none then false
  else if options.session_type = .userEvents ∧ options.user_events_data_fd = -1 then false
  else true

/-- The scan loop of `generate_session_index` (ep.c:483-493): from slot `i`
with `remaining` slots left to inspect, the first NULL slot, else
`EP_MAX_NUMBER_OF_SESSIONS`. -/
def generate_session_index_scan (sessions : Nat → Option EventPipeSession) :
    Nat → Nat → Nat
  | 0, _ => EP_MAX_NUMBER_OF_SESSIONS
  | remaining + 1, i =>
    if sessions i = none then i else generate_session_index_scan sessions remaining (i + 1)

/-- Mirrors `generate_session_index` (ep.c:483-493). -/
def generate_session_index (st : EPGlobalState) : Nat :=
  generate_session_index_scan st.sessions EP_MAX_NUMBER_OF_SESSIONS 0

/-- The scan loop of `is_session_id_in_collection` (ep.c:495-512): the C
compares each slot pointer against the id's cast; pointer equality is modelled
as handle equality, and the found slot's index and session are returned so
callers can keep using them as the C keeps using the cast pointer. -/
def find_session_slot_scan (sessions : Nat → Option EventPipeSession)
    (session_id : EventPipeSessionID) : Nat → Nat → Option (Nat × EventPipeSession)
  | 0, _ => none
  | remaining + 1, i =>
    match sessions i with
    | some s =>
      if s.id = session_id then some (i, s)
      else find_session_slot_scan sessions session_id remaining (i + 1)
    | none => find_session_slot_scan sessions session_id remaining (i + 1)

/-- The slot scan of `is_session_id_in_collection`, started at slot 0. -/
def find_session_slot (st : EPGlobalState) (session_id : EventPipeSessionID) :
    Option (Nat × EventPipeSession) :=
  find_session_slot_scan st.sessions session_id EP_MAX_NUMBER_OF_SESSIONS 0

/-- Mirrors `is_session_id_in_collection` (ep.c:495-512). -/
def is_session_id_in_collection (st : EPGlobalState) (session_id : EventPipeSessionID) : Bool :=
  (find_session_slot st session_id).isSome

/-- Pointwise slot update of the `_ep_sessions` array. -/
def setSlot (sessions : Nat → Option EventPipeSession) (i : Nat)
    (v : Option EventPipeSession) : Nat → Option EventPipeSession :=
  fun j => if j = i then v else sessions j

/-- Modelled from the spec: `ep_session_alloc` (ep-session.c, not part of src).
The spec says `enable` "constructs the session" with the chosen index and the
given options, and that a session's identity is "derived from the session's
storage address, cast to an integer"; allocation freshness is modelled by
drawing the handle from the monotone `next_session_handle` counter. -/
def ep_session_alloc (index : Nat) (options : EventPipeSessionOptions)
    (handle : Nat) : EventPipeSession :=
  { id := handle
    index := index
    rundown_keyword := options.rundown_keyword
    provider_names := (options.providers.getD []).filterMap (·.provider_name)
    session_type := options.session_type }

/-- Mirrors `session_requested_sampling` (ep.c:992-998): the session's
provider list contains the sample profiler's well-known name. -/
def session_requested_sampling (session : EventPipeSession) : Bool :=
  session.provider_names.any (· == sample_profiler_provider_name)

/-- Mirrors `enable` (ep.c:533-616), run under the lock. The external
allocation and event-source enabling (`ep_session_alloc`,
`ep_event_source_enable`) are modelled as succeeding; every guard of ep.c
itself is kept, with its `ep_raise_error` path returning id 0. Returns the
session id (0 on failure), the new state, and the action trace. -/
def enable (options : EventPipeSessionOptions) (st : EPGlobalState) :
    EventPipeSessionID × EPGlobalState × List EPAction :=
  if st.ep_state ≠ .initialized then (0, st, [])
  else
    let session_index := generate_session_index st
    if session_index ≥ EP_MAX_NUMBER_OF_SESSIONS then (0, st, [])
    else
      let session := ep_session_alloc session_index options st.next_session_handle
      let st0 := { st with next_session_handle := st.next_session_handle + 1 }
      if session.index ≥ EP_MAX_NUMBER_OF_SESSIONS then
        (0, st0, [.assertFailed, .sessionDecRef])
      else if st0.number_of_sessions ≥ EP_MAX_NUMBER_OF_SESSIONS then
        (0, st0, [.assertFailed, .sessionDecRef])
      else if st0.sessions session.index ≠ none then
        (0, st0, [.sampleProfilerInit, .eventSourceEnable, .assertFailed, .sessionDecRef])
      else
        let st1 := { st0 with
          sessions := setSlot st0.sessions session.index (some session)
          allow_write := st0.allow_write ||| 2 ^ session.index
          number_of_sessions := st0.number_of_sessions + 1 }
        (session.id, st1,
          [.sampleProfilerInit, .eventSourceEnable, .configEnableDisable true] ++
          (if session_requested_sampling session then [.sampleProfilerEnable] else []))

/-- Mirrors `ep_enable_3` (ep.c:1202-1232): the options are validated
synchronously (`ep_return_zero_if_nok (check_options_valid (options))`) before
the lock is taken and `enable` runs; the provider-callback drain after the
lock does not touch the registry. -/
def ep_enable_3 (uses_buffer_manager : EventPipeSessionType → Bool)
    (options : EventPipeSessionOptions) (st : EPGlobalState) :
    EventPipeSessionID × EPGlobalState × List EPAction :=
  if check_options_valid uses_buffer_manager options then enable options st
  else (0, st, [])

/-- The rundown block of `disable_holding_lock` (ep.c:657-673): enable the
rundown provider, mark the thread as the session's rundown thread,
re-activate the filters, execute rundown over the checkpoints, deactivate the
filters, unmark the thread. -/
def rundown_block : List EPAction :=
  [.sessionEnableRundown, .setRundownThread true, .configEnableDisable true,
   .executeRundown, .configEnableDisable false, .setRundownThread false]

/-- Mirrors `disable_holding_lock` (ep.c:629-704). The entry `EP_ASSERT`s
(`id != 0`, `number_of_sessions > 0`), the scan's index assertion and the
pre-null slot assertion surface as `assertFailed` actions when their condition
is false. When the id is not in the collection nothing happens. -/
def disable_holding_lock (id : EventPipeSessionID) (st : EPGlobalState) :
    EPGlobalState × List EPAction :=
  let entry_asserts :=
    (if id = 0 then [EPAction.assertFailed] else []) ++
    (if st.number_of_sessions = 0 then [EPAction.assertFailed] else [])
  match find_session_slot st id with
  | none => (st, entry_asserts)
  | some (i, session) =>
    let scan_assert := if i = session.index then [] else [EPAction.assertFailed]
    let t1 := if session_requested_sampling session then [EPAction.sampleProfilerDisable] else []
    let t2 := [EPAction.logProcessInfoEvent, EPAction.configEnableDisable false,
               EPAction.sessionDisable]
    let t3 := if session.rundown_keyword ≠ 0 ∧ st.can_start_threads = true then rundown_block
              else []
    let st1 := { st with allow_write := Nat.ldiff st.allow_write (2 ^ session.index) }
    let slot_assert := if st1.sessions session.index = some session then []
                       else [EPAction.assertFailed]
    let st2 := { st1 with sessions := setSlot st1.sessions session.index none }
    let st3 := { st2 with number_of_sessions := st2.number_of_sessions - 1 }
    (st3,
      entry_asserts ++ scan_assert ++ t1 ++ t2 ++ t3 ++
      [EPAction.clearAllowWriteBit] ++ slot_assert ++
      [EPAction.nullSessionSlot, EPAction.suspendWriteEvent, EPAction.writeAllBuffersToFile,
       EPAction.decrementSessionCount, EPAction.writeSequencePoint, EPAction.sessionDecRef])

/-- Mirrors `disable_helper` (ep.c:706-751): nothing for id 0; the lock
section runs `disable_holding_lock` only when sessions exist; the callback
drain after the lock leaves the registry alone. -/
def disable_helper (id : EventPipeSessionID) (st : EPGlobalState) :
    EPGlobalState × List EPAction :=
  if id = 0 then (st, [])
  else if st.number_of_sessions > 0 then disable_holding_lock id st
  else (st, [])

/-- Mirrors `ep_disable` (ep.c:1234-1262): when background threads cannot
start yet and the IPC stream factory reports no suspended ports, the id is
pushed onto the deferred-disable queue and nothing else happens; otherwise
`disable_helper` runs. -/
def ep_disable (id : EventPipeSessionID) (st : EPGlobalState) :
    EPGlobalState × List EPAction :=
  if st.can_start_threads = false ∧ st.ipc_suspended_ports = false then
    ({ st with deferred_disable_session_ids := st.deferred_disable_session_ids ++ [id] }, [])
  else disable_helper id st

/-- Mirrors `ep_start_streaming` (ep.c:1296-1315): a no-op for unknown ids;
streaming starts immediately when threads may run, else the id is queued. -/
def ep_start_streaming (session_id : EventPipeSessionID) (st : EPGlobalState) :
    EPGlobalState × List EPAction :=
  if is_session_id_in_collection st session_id then
    if st.can_start_threads = true then (st, [EPAction.sessionStartStreaming session_id])
    else ({ st with
            deferred_enable_session_ids := st.deferred_enable_session_ids ++ [session_id] }, [])
  else (st, [])

/-- The deferred-enable replay of `ep_finish_init` (ep.c:1526-1532): each id in
FIFO order, streaming started when the id is still in the registry
(`ep_session_start_streaming` does not mutate the registry). -/
def replay_deferred_enable (st : EPGlobalState) : List EventPipeSessionID → List EPAction
  | [] => []
  | id :: t =>
    (if is_session_id_in_collection st id then [EPAction.sessionStartStreaming id] else []) ++
    replay_deferred_enable st t

/-- The deferred-disable replay of `ep_finish_init` (ep.c:1542-1549): each id
in FIFO order through the full `disable_helper` routine, threading the state. -/
def replay_deferred_disable :
    List EventPipeSessionID → EPGlobalState → EPGlobalState × List EPAction
  | [], st => (st, [])
  | id :: t, st =>
    let r1 := disable_helper id st
    let r2 := replay_deferred_disable t r1.1
    (r2.1, r1.2 ++ r2.2)

/-- Mirrors `ep_finish_init` (ep.c:1515-1557): set `_ep_can_start_threads`,
replay and clear the deferred-enable queue (when initialized), let the sample
profiler start sampling, then replay and clear the deferred-disable queue
(when initialized). -/
def ep_finish_init (st : EPGlobalState) : EPGlobalState × List EPAction :=
  let st0 := { st with can_start_threads := true }
  let r1 :=
    if st0.ep_state = .initialized then
      ({ st0 with deferred_enable_session_ids := [] },
       replay_deferred_enable st0 st0.deferred_enable_session_ids)
    else (st0, [])
  let st1 := r1.1
  let r2 :=
    if st1.ep_state = .initialized then
      let r := replay_deferred_disable st1.deferred_disable_session_ids st1
      ({ r.1 with deferred_disable_session_ids := [] }, r.2)
    else (st1, [])
  (r2.1, r1.2 ++ [EPAction.sampleProfilerCanStartSampling] ++ r2.2)

/-- The steps of `disable_holding_lock` named by the teardown-order claim: the
rundown execution and the seven tail steps, in the claimed order. -/
def teardown_key_step : EPAction → Bool
  | .executeRundown => true
  | .clearAllowWriteBit => true
  | .nullSessionSlot => true
  | .suspendWriteEvent => true
  | .writeAllBuffersToFile => true
  | .decrementSessionCount => true
  | .writeSequencePoint => true
  | .sessionDecRef => true
  | _ => false

/-!
Concrete states for instantiating the lifecycle theorems
-/

/-- A concrete instantiation of the abstracted
`ep_session_type_uses_buffer_manager`: every session type uses one. -/
def ubmAll : EventPipeSessionType → Bool := fun _ => true

/-- Valid file-session options. -/
def sampleFileOptions : EventPipeSessionOptions :=
  { output_path := some "trace.nettrace".toList
    circular_buffer_size_in_mb := 1
    providers := some default_provider_configs
    providers_len := 3
    session_type := .file
    format := 1
    rundown_keyword := 0
    stackwalk_requested := true
    stream := none
    user_events_data_fd := 0 }

/-- A session occupying slot 0, configured with the default rundown keyword. -/
def sessionA : EventPipeSession :=
  { id := 1, index := 0, rundown_keyword := 0x80020139, provider_names := [],
    session_type := .fileStream }

/-- The registry right after `ep_init` and `ep_finish_init`: empty, threads
permitted. -/
def epStateEmpty : EPGlobalState :=
  { ep_state := .initialized, number_of_sessions := 0, sessions := fun _ => none,
    allow_write := 0, can_start_threads := true, deferred_enable_session_ids := [],
    deferred_disable_session_ids := [], ipc_suspended_ports := false,
    next_session_handle := 1 }

/-- A registry holding `sessionA` in slot 0. -/
def epStateWithA : EPGlobalState :=
  { epStateEmpty with
    number_of_sessions := 1
    sessions := setSlot epStateEmpty.sessions 0 (some sessionA)
    allow_write := 1
    next_session_handle := 2 }

/-- `epStateWithA` before `ep_finish_init` ran, with the IPC stream factory
reporting suspended ports. -/
def epStateSuspended : EPGlobalState :=
  { epStateWithA with can_start_threads := false, ipc_suspended_ports := true }

/-- `epStateWithA` before `ep_finish_init` ran, no suspended ports, both
deferred queues loaded (9 is a stale id no longer in the registry). -/
def epStateDeferred : EPGlobalState :=
  { epStateWithA with
    can_start_threads := false
    deferred_enable_session_ids := [1, 9]
    deferred_disable_session_ids := [1] }

/-- A registry with every slot occupied. -/
def epStateFull : EPGlobalState :=
  { epStateEmpty with
    number_of_sessions := EP_MAX_NUMBER_OF_SESSIONS
    sessions := fun j =>
      if j < EP_MAX_NUMBER_OF_SESSIONS then
        some { id := j + 1, index := j, rundown_keyword := 0, provider_names := [],
               session_type := .listener }
      else none
    allow_write := 2 ^ 64 - 1
    next_session_handle := 65 }

/-!
The `\x7bpid\x7d` output-path substitution
(`enable_default_session_via_env_variables`)
-/

/-- The opening brace character, written by code point. -/
def braceOpen : Char := Char.ofNat 123

/-- The `\x7bpid\x7d` substitution token of the output-path template
(ep.c:956). -/
def pid_token : List Char := "\x7bpid\x7d".toList

/-- The token without its leading brace, for head/tail reasoning about
prefix matches. -/
def pid_token_tail : List Char := "pid\x7d".toList

/-- The number of opening braces in a string: the termination measure of the
substitution loop (each replacement consumes exactly one, the token holding
one and the decimal pid string none). -/
def braceCount (s : List Char) : Nat := s.countP (· == braceOpen)

/-- A decimal digit character. -/
def decimalDigitChar : Nat → Char
  | 0 => '0'
  | 1 => '1'
  | 2 => '2'
  | 3 => '3'
  | 4 => '4'
  | 5 => '5'
  | 6 => '6'
  | 7 => '7'
  | 8 => '8'
  | _ => '9'

/-- Modelled from the spec: `ep_rt_utf8_string_snprintf (pidStr, 24, "%u",
(unsigned) ep_rt_current_process_get_id ())` (runtime shim, not part of src) —
the decimal digit string of the process id. -/
def decChars (n : Nat) : List Char :=
  if _h : n < 10 then [decimalDigitChar n]
  else decChars (n / 10) ++ [decimalDigitChar (n % 10)]
termination_by n
decreasing_by exact Nat.div_lt_self (by omega) (by omega)

/-- Modelled from the spec: `ep_rt_utf8_string_replace (&str, "\x7bpid\x7d",
pidStr)` (runtime shim, not part of src): replace the first occurrence of the
token, `none` when the token does not occur (the C returns false and leaves
the string alone). -/
def string_replace_first (repl : List Char) : List Char → Option (List Char)
  | [] => none
  | c :: rest =>
    if pid_token.isPrefixOf (c :: rest) then
      some (repl ++ (c :: rest).drop pid_token.length)
    else (string_replace_first repl rest).map (c :: ·)

/-- Whether some suffix of `s` starts with the `\x7bpid\x7d` token. -/
def containsToken : List Char → Bool
  | [] => false
  | c :: rest => pid_token.isPrefixOf (c :: rest) || containsToken rest

/-- The `while (true)` substitution loop of
`enable_default_session_via_env_variables` (ep.c:954-964): replace again while
a replacement happened. Structured as fuel recursion; each successful
replacement removes exactly one opening brace, so the `braceCount template + 1`
fuel supplied by `enable_default_session_output_path` never runs out. -/
def resolve_pid_loop (repl : List Char) : Nat → List Char → List Char
  | 0, s => s
  | fuel + 1, s =>
    match string_replace_first repl s with
    | none => s
    | some next => resolve_pid_loop repl fuel next

/-- The resolved output path of the environment-driven default session
(ep.c:947-969): the configured template with the token substituted by the
decimal process id. -/
def enable_default_session_output_path (pid : Nat) (template : List Char) : List Char :=
  resolve_pid_loop (decChars pid) (braceCount template + 1) template

/-- The specification's description of the substitution — "every occurrence of
the token ... is replaced with the current process id" — written directly as
a left-to-right replace-all, to be compared against the loop
`enable_default_session_output_path` actually runs. -/
def replace_all_token (repl : List Char) (s : List Char) : List Char :=
  match s with
  | [] => []
  | c :: rest =>
    if pid_token.isPrefixOf (c :: rest) then
      repl ++ replace_all_token repl ((c :: rest).drop pid_token.length)
    else c :: replace_all_token repl rest
termination_by s.length
decreasing_by
  all_goals
    have h5 : pid_token.length = 5 := rfl
    simp only [List.length_drop, List.length_cons]
    omega

/-!
The writer/disable quiescence handshake
(`write_event_2` against `disable_holding_lock`)
-/

/-- Program counter of one writer thread executing the fan-out loop body of
`write_event_2` (ep.c:829-858) at the slot being disabled: `idle` before the
`allow_write` bit check of the next pass; `marked` after
`ep_thread_set_session_write_in_progress (current_thread, i)`; `loaded v`
after re-reading the slot pointer (`ep_volatile_load_session (i)`); `writing
s` while inside `ep_session_write_event` on the non-null session `s`. -/
inductive WriterPc
  | idle
  | marked
  | loaded (slot_value : Option EventPipeSessionID)
  | writing (id : EventPipeSessionID)
deriving DecidableEq, Repr

/-- Program counter of the disabling thread inside `disable_holding_lock`
(ep.c:675-694): before clearing the `allow_write` bit; after clearing it;
after nulling the slot (spinning in `ep_session_suspend_write_event`); after
the free (`ep_session_dec_ref`). -/
inductive DisablerPc
  | start
  | bitCleared
  | slotNulled
  | freedDone
deriving DecidableEq, Repr

/-- An interleaving state of `n` writer threads racing one `disable`, projected
onto the single slot being disabled (the fan-out loop handles slots one at a
time, and the per-thread `write_in_progress` marker names one slot): the
slot's `allow_write` bit, the slot's session pointer, each thread's
write-in-progress marker and program counter, the disabler's program counter,
and whether the session has been freed. -/
structure QuiesceState (n : Nat) where
  allowBit : Bool
  slot : Option EventPipeSessionID
  write_in_progress : Fin n → Bool
  wpc : Fin n → WriterPc
  dpc : DisablerPc
  freed : Bool

/-- Initial state: the session `sid` is published in the slot with its
`allow_write` bit set, no thread writing, disable about to begin. -/
def qInit (n : Nat) (sid : EventPipeSessionID) : QuiesceState n :=
  { allowBit := true, slot := some sid, write_in_progress := fun _ => false,
    wpc := fun _ => .idle, dpc := .start, freed := false }

/-- One interleaved step. Writer transitions mirror the loop body of
`write_event_2` (ep.c:829-858): check the `allow_write` bit (skip the slot
when clear), set the thread's write-in-progress marker, re-read the slot
pointer, write into it only when non-null, clear the marker either way.
Disabler transitions mirror `disable_holding_lock` (ep.c:675-694): clear the
`allow_write` bit, null the slot, then free only once every thread's marker
for the slot is observed clear (the `YIELD_WHILE` spin of
`ep_session_suspend_write_event`). -/
inductive QStep {n : Nat} : QuiesceState n → QuiesceState n → Prop
  | writerCheckSet (t : Fin n) (st : QuiesceState n)
      (hpc : st.wpc t = .idle) (hbit : st.allowBit = true) :
      QStep st { st with
        wpc := fun u => if u = t then .marked else st.wpc u
        write_in_progress := fun u => if u = t then true else st.write_in_progress u }
  | writerCheckSkip (t : Fin n) (st : QuiesceState n)
      (hpc : st.wpc t = .idle) (hbit : st.allowBit = false) :
      QStep st st
  | writerLoad (t : Fin n) (st : QuiesceState n)
      (hpc : st.wpc t = .marked) :
      QStep st { st with
        wpc := fun u => if u = t then .loaded st.slot else st.wpc u }
  | writerWrite (t : Fin n) (st : QuiesceState n) (s : EventPipeSessionID)
      (hpc : st.wpc t = .loaded (some s)) :
      QStep st { st with
        wpc := fun u => if u = t then .writing s else st.wpc u }
  | writerClearAfterWrite (t : Fin n) (st : QuiesceState n) (s : EventPipeSessionID)
      (hpc : st.wpc t = .writing s) :
      QStep st { st with
        wpc := fun u => if u = t then .idle else st.wpc u
        write_in_progress := fun u => if u = t then false else st.write_in_progress u }
  | writerClearAfterNull (t : Fin n) (st : QuiesceState n)
      (hpc : st.wpc t = .loaded none) :
      QStep st { st with
        wpc := fun u => if u = t then .idle else st.wpc u
        write_in_progress := fun u => if u = t then false else st.write_in_progress u }
  | disableClearBit (st : QuiesceState n)
      (hpc : st.dpc = .start) :
      QStep st { st with allowBit := false, dpc := .bitCleared }
  | disableNullSlot (st : QuiesceState n)
      (hpc : st.dpc = .bitCleared) :
      QStep st { st with slot := none, dpc := .slotNulled }
  | disableFree (st : QuiesceState n)
      (hpc : st.dpc = .slotNulled)
      (hquiet : ∀ t, st.write_in_progress t = false) :
      QStep st { st with freed := true, dpc := .freedDone }

/-- The inductive invariant of the quiescence handshake: the disabler's
program counter determines bit/slot/freed; the slot only ever holds the
published session; a thread between marking and clearing keeps its marker set;
a loaded non-null pointer or a write target is the published session; and
after the free no thread still holds the pointer. -/
def QInv {n : Nat} (sid : EventPipeSessionID) (st : QuiesceState n) : Prop :=
  (st.dpc = .start → st.allowBit = true ∧ st.slot = some sid ∧ st.freed = false) ∧
  (st.dpc = .bitCleared → st.allowBit = false ∧ st.slot = some sid ∧ st.freed = false) ∧
  (st.dpc = .slotNulled → st.allowBit = false ∧ st.slot = none ∧ st.freed = false) ∧
  (st.dpc = .freedDone → st.allowBit = false ∧ st.slot = none) ∧
  (st.slot = some sid ∨ st.slot = none) ∧
  (∀ t, st.wpc t ≠ .idle → st.write_in_progress t = true) ∧
  (∀ t v, st.wpc t = .loaded (some v) → v = sid) ∧
  (∀ t s, st.wpc t = .writing s → s = sid) ∧
  (st.freed = true →
    ∀ t, st.wpc t ≠ .loaded (some sid) ∧ st.wpc t ≠ .writing sid)

/-- The quiescence-handshake state after writer 0 set its marker (the C2
witness's first step). -/
def qMid1 : QuiesceState 1 :=
  { qInit 1 1 with
    wpc := fun u => if u = 0 then .marked else (qInit 1 1).wpc u
    write_in_progress := fun u => if u = 0 then true else (qInit 1 1).write_in_progress u }

/-- The state after writer 0 re-read the slot pointer while the disabler has
not moved (the C2 witness's second step). -/
def qMid2 : QuiesceState 1 :=
  { qMid1 with wpc := fun u => if u = 0 then .loaded qMid1.slot else qMid1.wpc u }

end EventPipe

namespace EventPipe

/-!
Theorems

Shared lemmas first, then one theorem per claim (with its witness or
counterexample where required).
-/

theorem gss_spec (sessions : Nat → Option EventPipeSession) :
    ∀ remaining i,
      (generate_session_index_scan sessions remaining i = EP_MAX_NUMBER_OF_SESSIONS ∧
         ∀ j, i ≤ j → j < i + remaining → sessions j ≠ none) ∨
      (i ≤ generate_session_index_scan sessions remaining i ∧
         generate_session_index_scan sessions remaining i < i + remaining ∧
         sessions (generate_session_index_scan sessions remaining i) = none ∧
         ∀ j, i ≤ j → j < generate_session_index_scan sessions remaining i →
           sessions j ≠ none) := by
  intro remaining
  induction remaining with
  | zero =>
    intro i
    exact Or.inl ⟨rfl, fun j h1 h2 => absurd h2 (by omega)⟩
  | succ n ih =>
    intro i
    by_cases hfree : sessions i = none
    · have hscan : generate_session_index_scan sessions (n + 1) i = i := by
        simp [generate_session_index_scan, hfree]
      right
      rw [hscan]
      exact ⟨le_refl i, by omega, hfree, fun j h1 h2 => absurd h2 (by omega)⟩
    · have hscan : generate_session_index_scan sessions (n + 1) i =
          generate_session_index_scan sessions n (i + 1) := by
        simp [generate_session_index_scan, hfree]
      rcases ih (i + 1) with ⟨h1, h2⟩ | ⟨h1, h2, h3, h4⟩
      · left
        refine ⟨hscan.trans h1, fun j hj1 hj2 => ?_⟩
        rcases Nat.eq_or_lt_of_le hj1 with rfl | hj
        · exact hfree
        · exact h2 j hj (by omega)
      · right
        rw [hscan]
        refine ⟨by omega, by omega, h3, fun j hj1 hj2 => ?_⟩
        rcases Nat.eq_or_lt_of_le hj1 with rfl | hj
        · exact hfree
        · exact h4 j hj hj2

/-- `generate_session_index` either reports a full registry or returns the
least free slot index. -/
theorem generate_session_index_spec (st : EPGlobalState) :
    (generate_session_index st = EP_MAX_NUMBER_OF_SESSIONS ∧
       ∀ j, j < EP_MAX_NUMBER_OF_SESSIONS → st.sessions j ≠ none) ∨
    (generate_session_index st < EP_MAX_NUMBER_OF_SESSIONS ∧
       st.sessions (generate_session_index st) = none ∧
       ∀ j, j < generate_session_index st → st.sessions j ≠ none) := by
  rcases gss_spec st.sessions EP_MAX_NUMBER_OF_SESSIONS 0 with ⟨h1, h2⟩ | ⟨h1, h2, h3, h4⟩
  · exact Or.inl ⟨h1, fun j hj => h2 j (by omega) (by omega)⟩
  · exact Or.inr ⟨by simpa using h2, h3, fun j hj => h4 j (by omega) hj⟩

/-- A non-zero id out of `enable` means every guard passed: the engine was
initialized, a free slot existed, and the new session was published there. -/
theorem enable_success_spec (options : EventPipeSessionOptions) (st : EPGlobalState)
    (h : (enable options st).1 ≠ 0) :
    st.ep_state = .initialized ∧
    generate_session_index st < EP_MAX_NUMBER_OF_SESSIONS ∧
    (enable options st).1 = st.next_session_handle ∧
    (enable options st).2.1.sessions =
      setSlot st.sessions (generate_session_index st)
        (some (ep_session_alloc (generate_session_index st) options st.next_session_handle)) := by
  simp only [enable, ep_session_alloc] at h ⊢
  split_ifs at h ⊢ with h1 h2 h3 h4 h5
  all_goals first
    | (exact absurd rfl h)
    | (exact ⟨not_not.mp h1, by omega, rfl, rfl⟩)

/-- A non-zero id out of `ep_enable_3` means the options were valid and
`enable` ran. -/
theorem ep_enable_3_ne_zero (ubm : EventPipeSessionType → Bool)
    (opts : EventPipeSessionOptions) (st : EPGlobalState)
    (h : (ep_enable_3 ubm opts st).1 ≠ 0) :
    ep_enable_3 ubm opts st = enable opts st := by
  unfold ep_enable_3 at h ⊢
  split_ifs at h ⊢ with hc
  · rfl
  · exact absurd rfl h

/-- The deferred-enable replay is the FIFO queue filtered to ids still in the
registry, each one started. -/
theorem replay_deferred_enable_eq (st : EPGlobalState) (q : List EventPipeSessionID) :
    replay_deferred_enable st q =
      (q.filter fun i => is_session_id_in_collection st i).map
        EPAction.sessionStartStreaming := by
  induction q with
  | nil => rfl
  | cons a t ih =>
    by_cases h : is_session_id_in_collection st a
    · simp [replay_deferred_enable, h, ih]
    · simp [replay_deferred_enable, h, ih]

/-- `disable_holding_lock` never touches the deferred queues or the
threads-permitted flag. -/
theorem disable_holding_lock_preserves (id : EventPipeSessionID) (st : EPGlobalState) :
    (disable_holding_lock id st).1.deferred_disable_session_ids =
      st.deferred_disable_session_ids ∧
    (disable_holding_lock id st).1.deferred_enable_session_ids =
      st.deferred_enable_session_ids ∧
    (disable_holding_lock id st).1.can_start_threads = st.can_start_threads := by
  unfold disable_holding_lock
  rcases h : find_session_slot st id with _ | ⟨i, s⟩ <;> simp

/-- `disable_helper` never touches the deferred queues or the
threads-permitted flag. -/
theorem disable_helper_preserves (id : EventPipeSessionID) (st : EPGlobalState) :
    (disable_helper id st).1.deferred_disable_session_ids =
      st.deferred_disable_session_ids ∧
    (disable_helper id st).1.deferred_enable_session_ids =
      st.deferred_enable_session_ids ∧
    (disable_helper id st).1.can_start_threads = st.can_start_threads := by
  unfold disable_helper
  split_ifs with h1 h2
  · exact ⟨rfl, rfl, rfl⟩
  · exact disable_holding_lock_preserves id st
  · exact ⟨rfl, rfl, rfl⟩

/-- The deferred-disable replay never touches the deferred queues or the
threads-permitted flag. -/
theorem replay_deferred_disable_preserves (q : List EventPipeSessionID)
    (st : EPGlobalState) :
    (replay_deferred_disable q st).1.deferred_disable_session_ids =
      st.deferred_disable_session_ids ∧
    (replay_deferred_disable q st).1.deferred_enable_session_ids =
      st.deferred_enable_session_ids ∧
    (replay_deferred_disable q st).1.can_start_threads = st.can_start_threads := by
  induction q generalizing st with
  | nil => exact ⟨rfl, rfl, rfl⟩
  | cons a t ih =>
    simp only [replay_deferred_disable]
    obtain ⟨h1, h2, h3⟩ := disable_helper_preserves a st
    obtain ⟨h4, h5, h6⟩ := ih (disable_helper a st).1
    exact ⟨h4.trans h1, h5.trans h2, h6.trans h3⟩

/-- **C1**: for every session id currently in the registry,
`disable_holding_lock` performs its teardown steps in this exact order: the
rundown sub-protocol runs if and only if the session's rundown keyword is
non-zero and background threads are permitted; then the `allow_write` bit is
cleared, the registry slot nulled, writer quiescence awaited on that slot,
buffered events flushed, `session_count` decremented, the final sequence
marker written, and the session's reference released. The trace filtered to
exactly those steps equals the claimed sequence, so rundown (when present)
is strictly before the slot nulling. -/
theorem claim_C1_disable_teardown_order (st : EPGlobalState) (id : EventPipeSessionID)
    (i : Nat) (session : EventPipeSession)
    (h : find_session_slot st id = some (i, session)) :
    (disable_holding_lock id st).2.filter teardown_key_step =
      (if session.rundown_keyword ≠ 0 ∧ st.can_start_threads = true
       then [EPAction.executeRundown] else []) ++
      [EPAction.clearAllowWriteBit, EPAction.nullSessionSlot, EPAction.suspendWriteEvent,
       EPAction.writeAllBuffersToFile, EPAction.decrementSessionCount,
       EPAction.writeSequencePoint, EPAction.sessionDecRef] := by
  unfold disable_holding_lock
  rw [h]
  by_cases hr : session.rundown_keyword ≠ 0 ∧ st.can_start_threads = true <;>
    simp [hr, rundown_block, teardown_key_step, List.filter_append,
      apply_ite (List.filter teardown_key_step)]

/-- Witness for C1: the concrete registry holding `sessionA` (non-zero rundown
keyword, threads permitted) in slot 0. -/
theorem claim_C1_witness :
    (disable_holding_lock 1 epStateWithA).2.filter teardown_key_step =
      (if sessionA.rundown_keyword ≠ 0 ∧ epStateWithA.can_start_threads = true
       then [EPAction.executeRundown] else []) ++
      [EPAction.clearAllowWriteBit, EPAction.nullSessionSlot, EPAction.suspendWriteEvent,
       EPAction.writeAllBuffersToFile, EPAction.decrementSessionCount,
       EPAction.writeSequencePoint, EPAction.sessionDecRef] :=
  claim_C1_disable_teardown_order epStateWithA 1 0 sessionA rfl

/-- **C5**: `ep_disable` on an id that is not currently in the registry —
in particular a second disable of an already-disabled session — changes no
registry state (slots, `allow_write` bitmask, session count), releases no
session reference, and trips no assertion. -/
theorem claim_C5_disable_unknown_id_noop (st : EPGlobalState) (id : EventPipeSessionID)
    (h : find_session_slot st id = none) :
    (ep_disable id st).1.sessions = st.sessions ∧
    (ep_disable id st).1.allow_write = st.allow_write ∧
    (ep_disable id st).1.number_of_sessions = st.number_of_sessions ∧
    EPAction.sessionDecRef ∉ (ep_disable id st).2 ∧
    EPAction.assertFailed ∉ (ep_disable id st).2 := by
  by_cases hdef : st.can_start_threads = false ∧ st.ipc_suspended_ports = false
  · simp [ep_disable, hdef]
  · by_cases hid : id = 0
    · simp [ep_disable, hdef, disable_helper, hid]
    · by_cases hcnt : st.number_of_sessions > 0
      · have hcnt' : ¬ (st.number_of_sessions = 0) := by omega
        simp [ep_disable, hdef, disable_helper, hid, hcnt, disable_holding_lock, h, hcnt']
      · simp [ep_disable, hdef, disable_helper, hid, hcnt]

/-- Witness for C5: disabling session 1 twice; the second call sees an id no
longer in the registry and is a no-op. -/
theorem claim_C5_witness :
    (ep_disable 1 (ep_disable 1 epStateWithA).1).1.sessions =
      (ep_disable 1 epStateWithA).1.sessions ∧
    (ep_disable 1 (ep_disable 1 epStateWithA).1).1.allow_write =
      (ep_disable 1 epStateWithA).1.allow_write ∧
    (ep_disable 1 (ep_disable 1 epStateWithA).1).1.number_of_sessions =
      (ep_disable 1 epStateWithA).1.number_of_sessions ∧
    EPAction.sessionDecRef ∉ (ep_disable 1 (ep_disable 1 epStateWithA).1).2 ∧
    EPAction.assertFailed ∉ (ep_disable 1 (ep_disable 1 epStateWithA).1).2 :=
  claim_C5_disable_unknown_id_noop (ep_disable 1 epStateWithA).1 1 (by decide)

/-- **C6**: `enable` scans the registry in increasing index order and places
the new session in the lowest-index free slot; with every slot occupied it
fails closed with id 0; and two consecutive successful enables never receive
the same slot index — afterwards both sessions are alive in distinct slots. -/
theorem claim_C6_slot_assignment (ubm : EventPipeSessionType → Bool) (st : EPGlobalState)
    (opts1 opts2 : EventPipeSessionOptions) :
    (generate_session_index st < EP_MAX_NUMBER_OF_SESSIONS →
       st.sessions (generate_session_index st) = none ∧
       ∀ j, j < generate_session_index st → st.sessions j ≠ none) ∧
    ((∀ j, j < EP_MAX_NUMBER_OF_SESSIONS → st.sessions j ≠ none) →
       (ep_enable_3 ubm opts1 st).1 = 0) ∧
    ((ep_enable_3 ubm opts1 st).1 ≠ 0 →
       (ep_enable_3 ubm opts1 st).2.1.sessions (generate_session_index st) =
         some (ep_session_alloc (generate_session_index st) opts1
           st.next_session_handle)) ∧
    ((ep_enable_3 ubm opts1 st).1 ≠ 0 →
     (ep_enable_3 ubm opts2 (ep_enable_3 ubm opts1 st).2.1).1 ≠ 0 →
       generate_session_index st ≠
         generate_session_index (ep_enable_3 ubm opts1 st).2.1 ∧
       (ep_enable_3 ubm opts2 (ep_enable_3 ubm opts1 st).2.1).2.1.sessions
         (generate_session_index st) ≠ none ∧
       (ep_enable_3 ubm opts2 (ep_enable_3 ubm opts1 st).2.1).2.1.sessions
         (generate_session_index (ep_enable_3 ubm opts1 st).2.1) ≠ none) := by
  refine ⟨?_, ?_, ?_, ?_⟩
  · intro hlt
    rcases generate_session_index_spec st with ⟨h1, _⟩ | ⟨_, h2, h3⟩
    · rw [h1] at hlt; exact absurd hlt (lt_irrefl _)
    · exact ⟨h2, h3⟩
  · intro hfull
    have hg : generate_session_index st = EP_MAX_NUMBER_OF_SESSIONS := by
      rcases generate_session_index_spec st with ⟨h1, _⟩ | ⟨h1, h2, _⟩
      · exact h1
      · exact absurd h2 (hfull _ h1)
    by_contra hne
    have he := ep_enable_3_ne_zero ubm opts1 st hne
    rw [he] at hne
    have hs := enable_success_spec opts1 st hne
    rw [hg] at hs
    exact absurd hs.2.1 (lt_irrefl _)
  · intro h1
    have he := ep_enable_3_ne_zero ubm opts1 st h1
    rw [he] at h1 ⊢
    have hs := enable_success_spec opts1 st h1
    rw [hs.2.2.2]
    simp [setSlot]
  · intro h1 h2
    have he1 := ep_enable_3_ne_zero ubm opts1 st h1
    rw [he1] at h1 h2 ⊢
    have hs1 := enable_success_spec opts1 st h1
    have he2 := ep_enable_3_ne_zero ubm opts2 (enable opts1 st).2.1 h2
    rw [he2] at h2 ⊢
    have hs2 := enable_success_spec opts2 (enable opts1 st).2.1 h2
    have hslot1 : (enable opts1 st).2.1.sessions (generate_session_index st) =
        some (ep_session_alloc (generate_session_index st) opts1
          st.next_session_handle) := by
      rw [hs1.2.2.2]; simp [setSlot]
    have hfree2 : (enable opts1 st).2.1.sessions
        (generate_session_index (enable opts1 st).2.1) = none := by
      rcases generate_session_index_spec (enable opts1 st).2.1 with ⟨hg, _⟩ | ⟨_, hg, _⟩
      · rw [hg] at hs2; exact absurd hs2.2.1 (lt_irrefl _)
      · exact hg
    have hne : generate_session_index st ≠
        generate_session_index (enable opts1 st).2.1 := by
      intro heq
      rw [← heq] at hfree2
      rw [hslot1] at hfree2
      exact Option.noConfusion hfree2
    refine ⟨hne, ?_, ?_⟩
    · rw [hs2.2.2.2]
      simp only [setSlot]
      rw [if_neg hne, hslot1]
      exact fun hx => Option.noConfusion hx
    · rw [hs2.2.2.2]
      simp [setSlot]

/-- Witness for C6: the empty registry hands out slot 0 then slot 1; the full
registry makes `ep_enable_3` return id 0. -/
theorem claim_C6_witness :
    (epStateEmpty.sessions (generate_session_index epStateEmpty) = none ∧
       ∀ j, j < generate_session_index epStateEmpty → epStateEmpty.sessions j ≠ none) ∧
    (ep_enable_3 ubmAll sampleFileOptions epStateFull).1 = 0 ∧
    (ep_enable_3 ubmAll sampleFileOptions epStateEmpty).2.1.sessions
        (generate_session_index epStateEmpty) =
      some (ep_session_alloc (generate_session_index epStateEmpty) sampleFileOptions
        epStateEmpty.next_session_handle) ∧
    (generate_session_index epStateEmpty ≠
       generate_session_index (ep_enable_3 ubmAll sampleFileOptions epStateEmpty).2.1 ∧
     (ep_enable_3 ubmAll sampleFileOptions
         (ep_enable_3 ubmAll sampleFileOptions epStateEmpty).2.1).2.1.sessions
       (generate_session_index epStateEmpty) ≠ none ∧
     (ep_enable_3 ubmAll sampleFileOptions
         (ep_enable_3 ubmAll sampleFileOptions epStateEmpty).2.1).2.1.sessions
       (generate_session_index (ep_enable_3 ubmAll sampleFileOptions epStateEmpty).2.1) ≠
         none) :=
  ⟨(claim_C6_slot_assignment ubmAll epStateEmpty sampleFileOptions sampleFileOptions).1
      (by decide),
   (claim_C6_slot_assignment ubmAll epStateFull sampleFileOptions sampleFileOptions).2.1
      (by decide),
   (claim_C6_slot_assignment ubmAll epStateEmpty sampleFileOptions sampleFileOptions).2.2.1
      (by decide),
   (claim_C6_slot_assignment ubmAll epStateEmpty sampleFileOptions sampleFileOptions).2.2.2
      (by decide) (by decide)⟩

/-- **C7**: `ep_enable_3` validates its options synchronously before any
allocation; an unknown serialization format, a zero buffer size for a session
type using a buffer manager, a File/FileStream session without an output path,
an IpcStream session without a stream, or a UserEvents session with descriptor
-1 each return session id 0 with the registry untouched and no step taken. -/
theorem claim_C7_invalid_options_rejected (ubm : EventPipeSessionType → Bool)
    (options : EventPipeSessionOptions) (st : EPGlobalState)
    (h : options.format ≥ EP_SERIALIZATION_FORMAT_COUNT ∨
         (ubm options.session_type = true ∧ options.circular_buffer_size_in_mb = 0) ∨
         ((options.session_type = .file ∨ options.session_type = .fileStream) ∧
            options.output_path = none) ∨
         (options.session_type = .ipcStream ∧ options.stream = none) ∨
         (options.session_type = .userEvents ∧ options.user_events_data_fd = -1)) :
    ep_enable_3 ubm options st = (0, st, []) := by
  have hv : check_options_valid ubm options = false := by
    unfold check_options_valid
    split_ifs with h1 h2 h3 h4 h5 h6
    any_goals rfl
    exfalso
    rcases h with h | h | h | h | h
    · exact h1 h
    · exact h2 ⟨h.2, h.1⟩
    · exact h4 h
    · exact h5 h
    · exact h6 h
  simp [ep_enable_3, hv]

/-- Witness for C7: a File session with no output path. -/
theorem claim_C7_witness :
    ep_enable_3 ubmAll { sampleFileOptions with output_path := none } epStateEmpty =
      (0, epStateEmpty, []) :=
  claim_C7_invalid_options_rejected ubmAll
    { sampleFileOptions with output_path := none } epStateEmpty
    (Or.inr (Or.inr (Or.inl ⟨Or.inl rfl, rfl⟩)))

/-- **C9**: options whose providers array is NULL or whose provider count is
zero are rejected by `check_options_valid` regardless of session type:
`ep_enable_3` returns id 0 with the registry untouched. -/
theorem claim_C9_null_providers_rejected (ubm : EventPipeSessionType → Bool)
    (options : EventPipeSessionOptions) (st : EPGlobalState)
    (h : options.providers = none ∨ options.providers_len = 0) :
    ep_enable_3 ubm options st = (0, st, []) := by
  have hv : check_options_valid ubm options = false := by
    unfold check_options_valid
    split_ifs <;> rfl
  simp [ep_enable_3, hv]

/-- Witness for C9: otherwise-valid file options with a NULL providers array. -/
theorem claim_C9_witness :
    ep_enable_3 ubmAll { sampleFileOptions with providers := none } epStateEmpty =
      (0, epStateEmpty, []) :=
  claim_C9_null_providers_rejected ubmAll
    { sampleFileOptions with providers := none } epStateEmpty (Or.inl rfl)

/-- **C10**: a Keywords field that is present but empty (`"Name::3"`) parses to
the sentinel `UINT64_MAX`, whereas a spec ending right after the name
(`"Name"`) leaves the keyword mask at its initializer 0. -/
theorem claim_C10_keyword_field_defaults :
    ep_enable_2_providers ("Name::3".toList) =
      some [ { provider_name := some "Name".toList, keywords := UINT64_MAX,
               logging_level := 3, filter_data := none } ] ∧
    ep_enable_2_providers ("Name".toList) =
      some [ { provider_name := some "Name".toList, keywords := 0,
               logging_level := EP_EVENT_LEVEL_VERBOSE, filter_data := none } ] :=
  ⟨rfl, rfl⟩

/-- C3 counterexample: parsing `"Foo:10:3,Bar"` does *not* give `Bar` the
default all-keywords mask `UINT64_MAX` the claim (via spec 4.4) asserts — the
parsed keyword masks are `[0x10, 0]`. -/
theorem claim_C3_counterexample :
    ¬ ((ep_enable_2_providers ("Foo:10:3,Bar".toList)).map (fun l =>
          l.map (·.keywords)) = some [0x10, UINT64_MAX]) := by
  decide

/-- **C3 (amended)**: parsing the empty provider-config string yields exactly
the default 3-provider set (the two well-known runtime providers at keyword
masks 0x4c14fccbd and 0x4002000b plus the sample profiler at zero keywords,
all verbose); parsing `"Foo:10:3,Bar"` yields `Foo` with keyword mask 0x10,
level 3, no args, and `Bar` with keyword mask 0 (the parse-loop initializer,
since no Keywords field follows the bare name) at the most-verbose level. -/
theorem claim_C3_provider_config_parses :
    ep_enable_2_providers ("".toList) =
      some [ { provider_name := some public_provider_name, keywords := 0x4c14fccbd,
               logging_level := EP_EVENT_LEVEL_VERBOSE, filter_data := none },
             { provider_name := some private_provider_name, keywords := 0x4002000b,
               logging_level := EP_EVENT_LEVEL_VERBOSE, filter_data := none },
             { provider_name := some sample_profiler_provider_name, keywords := 0,
               logging_level := EP_EVENT_LEVEL_VERBOSE, filter_data := none } ] ∧
    ep_enable_2_providers ("Foo:10:3,Bar".toList) =
      some [ { provider_name := some "Foo".toList, keywords := 0x10,
               logging_level := 3, filter_data := none },
             { provider_name := some "Bar".toList, keywords := 0,
               logging_level := EP_EVENT_LEVEL_VERBOSE, filter_data := none } ] :=
  ⟨rfl, rfl⟩

/-- C4 counterexample: before the one-time transition but with the IPC stream
factory reporting suspended ports, `ep_disable` does *not* append the id to
the deferred-disable queue — it runs the disable routine immediately (the
queue stays empty, the slot is nulled, teardown steps are taken). -/
theorem claim_C4_counterexample :
    (ep_disable 1 epStateSuspended).1.deferred_disable_session_ids = [] ∧
    (ep_disable 1 epStateSuspended).1.sessions 0 = none ∧
    (ep_disable 1 epStateSuspended).2 ≠ [] := by
  decide

/-- **C4 (amended)**: before the one-time transition *and with no suspended
IPC ports reported*, `ep_disable` only appends the id to the deferred-disable
queue; at `ep_finish_init` (engine initialized) the deferred-enable queue is
replayed first in FIFO order — starting streaming for each id still in the
registry — then the deferred-disable queue is replayed in FIFO order through
the full disable routine; after replay both queues are empty, and with
threads permitted neither `ep_disable` nor `ep_start_streaming` ever queues
again. -/
theorem claim_C4_deferred_queue_replay (st : EPGlobalState) (id : EventPipeSessionID) :
    (st.can_start_threads = false → st.ipc_suspended_ports = false →
       ep_disable id st =
         ({ st with deferred_disable_session_ids :=
              st.deferred_disable_session_ids ++ [id] }, [])) ∧
    (st.ep_state = .initialized →
       (ep_finish_init st).2 =
         (st.deferred_enable_session_ids.filter fun i =>
             is_session_id_in_collection { st with can_start_threads := true } i).map
           EPAction.sessionStartStreaming ++
         [EPAction.sampleProfilerCanStartSampling] ++
         (replay_deferred_disable st.deferred_disable_session_ids
            { st with can_start_threads := true,
                      deferred_enable_session_ids := [] }).2 ∧
       (ep_finish_init st).1 =
         { (replay_deferred_disable st.deferred_disable_session_ids
              { st with can_start_threads := true,
                        deferred_enable_session_ids := [] }).1 with
           deferred_disable_session_ids := [] } ∧
       (ep_finish_init st).1.deferred_enable_session_ids = [] ∧
       (ep_finish_init st).1.deferred_disable_session_ids = [] ∧
       (ep_finish_init st).1.can_start_threads = true) ∧
    (st.can_start_threads = true →
       (ep_disable id st).1.deferred_disable_session_ids =
         st.deferred_disable_session_ids ∧
       (ep_start_streaming id st).1.deferred_enable_session_ids =
         st.deferred_enable_session_ids) := by
  refine ⟨?_, ?_, ?_⟩
  · intro h1 h2
    simp [ep_disable, h1, h2]
  · intro h
    have hmain : ep_finish_init st =
        (let r := replay_deferred_disable st.deferred_disable_session_ids
            { st with can_start_threads := true, deferred_enable_session_ids := [] }
         ({ r.1 with deferred_disable_session_ids := [] },
          replay_deferred_enable { st with can_start_threads := true }
              st.deferred_enable_session_ids ++
            [EPAction.sampleProfilerCanStartSampling] ++ r.2)) := by
      unfold ep_finish_init
      simp [h]
    rw [hmain]
    obtain ⟨p1, p2, p3⟩ := replay_deferred_disable_preserves
      st.deferred_disable_session_ids
      { st with can_start_threads := true, deferred_enable_session_ids := [] }
    refine ⟨?_, rfl, ?_, rfl, ?_⟩
    · simp [replay_deferred_enable_eq]
    · exact p2
    · exact p3
  · intro h
    constructor
    · have hd : ep_disable id st = disable_helper id st := by
        unfold ep_disable
        rw [if_neg]
        simp [h]
      rw [hd]
      exact (disable_helper_preserves id st).1
    · by_cases hc : is_session_id_in_collection st id <;>
        simp [ep_start_streaming, hc, h]

/-- Witness for C4: the loaded deferred state (queues `[1, 9]` and `[1]`,
threads not yet permitted) defers a disable of id 7, replays at finish-init,
and the post-transition state never queues. -/
theorem claim_C4_witness :
    (ep_disable 7 epStateDeferred =
       ({ epStateDeferred with deferred_disable_session_ids :=
            epStateDeferred.deferred_disable_session_ids ++ [7] }, [])) ∧
    ((ep_finish_init epStateDeferred).2 =
       (epStateDeferred.deferred_enable_session_ids.filter fun i =>
           is_session_id_in_collection
             { epStateDeferred with can_start_threads := true } i).map
         EPAction.sessionStartStreaming ++
       [EPAction.sampleProfilerCanStartSampling] ++
       (replay_deferred_disable epStateDeferred.deferred_disable_session_ids
          { epStateDeferred with can_start_threads := true,
                                 deferred_enable_session_ids := [] }).2 ∧
     (ep_finish_init epStateDeferred).1 =
       { (replay_deferred_disable epStateDeferred.deferred_disable_session_ids
            { epStateDeferred with can_start_threads := true,
                                   deferred_enable_session_ids := [] }).1 with
         deferred_disable_session_ids := [] } ∧
     (ep_finish_init epStateDeferred).1.deferred_enable_session_ids = [] ∧
     (ep_finish_init epStateDeferred).1.deferred_disable_session_ids = [] ∧
     (ep_finish_init epStateDeferred).1.can_start_threads = true) ∧
    ((ep_disable 7 epStateWithA).1.deferred_disable_session_ids =
       epStateWithA.deferred_disable_session_ids ∧
     (ep_start_streaming 7 epStateWithA).1.deferred_enable_session_ids =
       epStateWithA.deferred_enable_session_ids) :=
  ⟨(claim_C4_deferred_queue_replay epStateDeferred 7).1 rfl rfl,
   (claim_C4_deferred_queue_replay epStateDeferred 7).2.1 rfl,
   (claim_C4_deferred_queue_replay epStateWithA 7).2.2 rfl⟩

/-!
The output-path substitution (C8)
-/


theorem decimalDigitChar_not_in_token (d : Nat) : decimalDigitChar d ∉ pid_token := by
  unfold decimalDigitChar
  split <;> decide

theorem braceCount_append (a b : List Char) :
    braceCount (a ++ b) = braceCount a + braceCount b := by
  simp [braceCount, List.countP_append]

theorem braceCount_eq_zero_iff (l : List Char) :
    braceCount l = 0 ↔ ∀ a ∈ l, a ≠ braceOpen := by
  rw [braceCount, List.countP_eq_zero]
  simp

theorem braceOpen_mem_token : braceOpen ∈ pid_token := by decide

theorem braceCount_eq_zero_of_disjoint (repl : List Char)
    (hdisj : ∀ ch ∈ repl, ch ∉ pid_token) : braceCount repl = 0 := by
  rw [braceCount_eq_zero_iff]
  intro a ha he
  exact hdisj a ha (he ▸ braceOpen_mem_token)

theorem decChars_disjoint (n : Nat) : ∀ ch ∈ decChars n, ch ∉ pid_token := by
  induction n using Nat.strong_induction_on with
  | _ n ih =>
    rw [decChars]
    split_ifs with h
    · intro ch hch
      simp at hch
      exact hch ▸ decimalDigitChar_not_in_token n
    · intro ch hch
      rcases List.mem_append.mp hch with hch | hch
      · exact ih (n / 10) (Nat.div_lt_self (by omega) (by omega)) ch hch
      · simp at hch
        exact hch ▸ decimalDigitChar_not_in_token (n % 10)

theorem decChars_ne_nil (n : Nat) : decChars n ≠ [] := by
  rw [decChars]
  split_ifs <;> simp

theorem isPrefixOf_append_drop (p : List Char) :
    ∀ l, p.isPrefixOf l = true → l = p ++ l.drop p.length := by
  induction p with
  | nil => intro l _; simp
  | cons a as ih =>
    intro l h
    cases l with
    | nil => simp [List.isPrefixOf] at h
    | cons b bs =>
      simp only [List.isPrefixOf, Bool.and_eq_true, beq_iff_eq] at h
      obtain ⟨rfl, h2⟩ := h
      simp only [List.length_cons, List.drop_succ_cons, List.cons_append, List.cons.injEq,
        true_and]
      exact ih bs h2

theorem string_replace_first_braceCount (repl : List Char) :
    ∀ s s', string_replace_first repl s = some s' →
      braceCount s' + 1 = braceCount s + braceCount repl := by
  intro s
  induction s with
  | nil =>
    intro s' h
    rw [string_replace_first] at h
    exact Option.noConfusion h
  | cons c rest ih =>
    intro s' h
    simp only [string_replace_first] at h
    split_ifs at h with hp
    · obtain rfl := Option.some_inj.mp h
      have hdecomp := isPrefixOf_append_drop pid_token (c :: rest) hp
      rw [braceCount_append]
      conv_rhs => rw [hdecomp]
      rw [braceCount_append]
      have htok : braceCount pid_token = 1 := by decide
      omega
    · cases hm : string_replace_first repl rest with
      | none => rw [hm] at h; simp at h
      | some t' =>
        rw [hm] at h
        simp only [Option.map_some', Option.some_inj] at h
        subst h
        have := ih t' hm
        simp only [braceCount, List.countP_cons] at *
        omega

theorem pid_token_head' : pid_token = braceOpen :: pid_token_tail := rfl

theorem string_replace_first_none (repl : List Char) :
    ∀ s, string_replace_first repl s = none ↔ containsToken s = false := by
  intro s
  induction s with
  | nil => simp [string_replace_first, containsToken]
  | cons c rest ih =>
    simp only [string_replace_first, containsToken]
    split_ifs with hp
    · simp [hp]
    · simp [hp, ih]

theorem string_replace_first_decomp (repl : List Char) :
    ∀ s s', string_replace_first repl s = some s' →
      ∃ pre post, s = pre ++ pid_token ++ post ∧ s' = pre ++ repl ++ post := by
  intro s
  induction s with
  | nil =>
    intro s' h
    rw [string_replace_first] at h
    exact Option.noConfusion h
  | cons c rest ih =>
    intro s' h
    simp only [string_replace_first] at h
    split_ifs at h with hp
    · obtain rfl := Option.some_inj.mp h
      refine ⟨[], (c :: rest).drop pid_token.length, ?_, rfl⟩
      simpa using isPrefixOf_append_drop pid_token (c :: rest) hp
    · cases hm : string_replace_first repl rest with
      | none => rw [hm] at h; simp at h
      | some t' =>
        rw [hm] at h
        simp only [Option.map_some', Option.some_inj] at h
        subst h
        obtain ⟨pre, post, h1, h2⟩ := ih t' hm
        exact ⟨c :: pre, post, by simp [h1], by simp [h2]⟩

theorem prefix_transfer (repl post : List Char) (hne : repl ≠ [])
    (hdisj : ∀ ch ∈ repl, ch ∉ pid_token) :
    ∀ (pre tok : List Char), (∀ ch ∈ tok, ch ∈ pid_token) →
      tok.isPrefixOf (pre ++ repl ++ post) = true →
      tok.isPrefixOf (pre ++ pid_token ++ post) = true := by
  intro pre
  induction pre with
  | nil =>
    intro tok htok hq
    cases tok with
    | nil => rfl
    | cons x ts =>
      exfalso
      cases repl with
      | nil => exact hne rfl
      | cons r rs =>
        simp only [List.nil_append, List.cons_append, List.isPrefixOf, Bool.and_eq_true,
          beq_iff_eq] at hq
        obtain ⟨rfl, _⟩ := hq
        exact hdisj x (List.mem_cons_self x rs) (htok x (List.mem_cons_self x ts))
  | cons p pre' ih =>
    intro tok htok hq
    cases tok with
    | nil => rfl
    | cons x ts =>
      simp only [List.cons_append, List.isPrefixOf, Bool.and_eq_true, beq_iff_eq] at hq ⊢
      exact ⟨hq.1, ih ts (fun ch hch => htok ch (List.mem_cons_of_mem x hch)) hq.2⟩

theorem replace_first_no_new_match (repl : List Char)
    (hdisj : ∀ ch ∈ repl, ch ∉ pid_token) (hne : repl ≠ [])
    (c : Char) (rest t' : List Char)
    (hp : pid_token.isPrefixOf (c :: rest) = false)
    (hm : string_replace_first repl rest = some t') :
    pid_token.isPrefixOf (c :: t') = false := by
  by_contra hq
  rw [Bool.not_eq_false] at hq
  obtain ⟨pre, post, hrest, ht'⟩ := string_replace_first_decomp repl rest t' hm
  subst hrest
  subst ht'
  have hq' : braceOpen = c ∧
      pid_token_tail.isPrefixOf (pre ++ repl ++ post) = true := by
    rw [pid_token_head'] at hq
    simpa only [List.isPrefixOf, Bool.and_eq_true, beq_iff_eq] using hq
  obtain ⟨rfl, hq2⟩ := hq'
  have htrans := prefix_transfer repl post hne hdisj pre pid_token_tail
    (by decide) hq2
  have hcontra : pid_token.isPrefixOf (braceOpen :: (pre ++ pid_token ++ post)) = true := by
    rw [pid_token_head'] at htrans ⊢
    simp only [List.isPrefixOf, Bool.and_eq_true, beq_iff_eq]
    exact ⟨trivial, htrans⟩
  rw [hcontra] at hp
  exact Bool.noConfusion hp

theorem isPrefixOf_false_of_head_ne (c : Char) (l : List Char)
    (h : c ≠ braceOpen) : pid_token.isPrefixOf (c :: l) = false := by
  rw [pid_token_head', Bool.eq_false_iff]
  intro hx
  simp only [List.isPrefixOf, Bool.and_eq_true, beq_iff_eq] at hx
  exact h hx.1.symm

theorem isPrefixOf_append_self (p x : List Char) : p.isPrefixOf (p ++ x) = true := by
  induction p with
  | nil => simp [List.isPrefixOf]
  | cons a as ih => simp [List.isPrefixOf, ih]

theorem replace_all_token_nil (repl : List Char) : replace_all_token repl [] = [] := by
  rw [replace_all_token]

theorem replace_all_token_cons (repl : List Char) (c : Char) (rest : List Char) :
    replace_all_token repl (c :: rest) =
      if pid_token.isPrefixOf (c :: rest) then
        repl ++ replace_all_token repl ((c :: rest).drop pid_token.length)
      else c :: replace_all_token repl rest := by
  rw [replace_all_token]

theorem replace_all_token_of_no_token (repl : List Char) :
    ∀ s, containsToken s = false → replace_all_token repl s = s := by
  intro s
  induction s with
  | nil => intro _; exact replace_all_token_nil repl
  | cons c rest ih =>
    intro h
    simp only [containsToken, Bool.or_eq_false_iff] at h
    rw [replace_all_token_cons, if_neg (by simp [h.1]), ih h.2]

theorem replace_all_token_append_inert (repl : List Char) :
    ∀ (a x : List Char), braceCount a = 0 →
      replace_all_token repl (a ++ x) = a ++ replace_all_token repl x := by
  intro a
  induction a with
  | nil => intro x _; simp
  | cons c a' ih =>
    intro x ha
    have hc : c ≠ braceOpen := by
      rw [braceCount_eq_zero_iff] at ha
      exact ha c (List.mem_cons_self c a')
    have ha' : braceCount a' = 0 := by
      rw [braceCount_eq_zero_iff] at ha ⊢
      exact fun b hb => ha b (List.mem_cons_of_mem c hb)
    rw [List.cons_append, replace_all_token_cons,
      if_neg (by simp [isPrefixOf_false_of_head_ne c _ hc]), ih x ha', List.cons_append]

theorem replace_all_token_token_append (repl x : List Char) :
    replace_all_token repl (pid_token ++ x) = repl ++ replace_all_token repl x := by
  have hcons : pid_token ++ x = braceOpen :: (pid_token_tail ++ x) := by
    rw [pid_token_head', List.cons_append]
  have hpre : pid_token.isPrefixOf (braceOpen :: (pid_token_tail ++ x)) = true := by
    rw [← hcons]
    exact isPrefixOf_append_self pid_token x
  have hdrop : List.drop pid_token.length (braceOpen :: (pid_token_tail ++ x)) = x := by
    rw [← hcons]
    exact List.drop_left pid_token x
  rw [hcons, replace_all_token_cons, if_pos hpre, hdrop]

theorem replace_all_token_replace_first (repl : List Char)
    (hdisj : ∀ ch ∈ repl, ch ∉ pid_token) (hne : repl ≠ []) :
    ∀ s s', string_replace_first repl s = some s' →
      replace_all_token repl s = replace_all_token repl s' := by
  intro s
  induction s with
  | nil =>
    intro s' h
    rw [string_replace_first] at h
    exact Option.noConfusion h
  | cons c rest ih =>
    intro s' h
    simp only [string_replace_first] at h
    split_ifs at h with hp
    · obtain rfl := Option.some_inj.mp h
      have hb : braceCount repl = 0 := braceCount_eq_zero_of_disjoint repl hdisj
      rw [replace_all_token_cons, if_pos hp,
        replace_all_token_append_inert repl repl _ hb]
    · cases hm : string_replace_first repl rest with
      | none => rw [hm] at h; simp at h
      | some t' =>
        rw [hm] at h
        simp only [Option.map_some', Option.some_inj] at h
        subst h
        have hp0 : pid_token.isPrefixOf (c :: rest) = false :=
          Bool.eq_false_iff.mpr hp
        have hp' := replace_first_no_new_match repl hdisj hne c rest t' hp0 hm
        rw [replace_all_token_cons, if_neg (by simp [hp0]),
          replace_all_token_cons, if_neg (by simp [hp']), ih t' hm]

theorem resolve_pid_loop_no_token (repl : List Char) (hb : braceCount repl = 0) :
    ∀ fuel s, braceCount s < fuel →
      containsToken (resolve_pid_loop repl fuel s) = false := by
  intro fuel
  induction fuel with
  | zero => intro s h; exact absurd h (by omega)
  | succ n ih =>
    intro s h
    rw [resolve_pid_loop]
    cases hr : string_replace_first repl s with
    | none =>
      exact (string_replace_first_none repl s).mp hr
    | some s' =>
      apply ih
      have := string_replace_first_braceCount repl s s' hr
      omega

theorem resolve_pid_loop_eq_replace_all (repl : List Char) (hne : repl ≠ [])
    (hdisj : ∀ ch ∈ repl, ch ∉ pid_token) :
    ∀ fuel s, braceCount s < fuel →
      resolve_pid_loop repl fuel s = replace_all_token repl s := by
  intro fuel
  induction fuel with
  | zero => intro s h; exact absurd h (by omega)
  | succ n ih =>
    intro s h
    cases hr : string_replace_first repl s with
    | none =>
      have hred : resolve_pid_loop repl (n + 1) s = s := by
        rw [resolve_pid_loop, hr]
      rw [hred]
      exact (replace_all_token_of_no_token repl s
        ((string_replace_first_none repl s).mp hr)).symm
    | some s' =>
      have hred : resolve_pid_loop repl (n + 1) s = resolve_pid_loop repl n s' := by
        rw [resolve_pid_loop, hr]
      have hbc := string_replace_first_braceCount repl s s' hr
      have hb : braceCount repl = 0 := braceCount_eq_zero_of_disjoint repl hdisj
      rw [hred, ih s' (by omega)]
      exact (replace_all_token_replace_first repl hdisj hne s s' hr).symm

/-- **C8**: resolving the environment-driven default session's output-path
template replaces every occurrence of the `\x7bpid\x7d` token with the decimal
process id — the replacement loop computes exactly the left-to-right
replace-all of the token — and the resolved path contains no remaining token;
in particular the spec's template `trace_\x7bpid\x7d.nettrace` resolves to
`trace_<pid>.nettrace`. -/
theorem claim_C8_pid_substitution (pid : Nat) (template : List Char) :
    containsToken (enable_default_session_output_path pid template) = false ∧
    enable_default_session_output_path pid template =
      replace_all_token (decChars pid) template ∧
    enable_default_session_output_path pid
        ("trace_\x7bpid\x7d.nettrace".toList) =
      "trace_".toList ++ decChars pid ++ ".nettrace".toList := by
  have hdisj := decChars_disjoint pid
  have hne := decChars_ne_nil pid
  have hb : braceCount (decChars pid) = 0 := braceCount_eq_zero_of_disjoint _ hdisj
  refine ⟨?_, ?_, ?_⟩
  · exact resolve_pid_loop_no_token (decChars pid) hb (braceCount template + 1) template
      (by omega)
  · exact resolve_pid_loop_eq_replace_all (decChars pid) hne hdisj
      (braceCount template + 1) template (by omega)
  · rw [enable_default_session_output_path]
    rw [resolve_pid_loop_eq_replace_all (decChars pid) hne hdisj _ _ (by omega)]
    have hsplit : ("trace_\x7bpid\x7d.nettrace".toList : List Char) =
        "trace_".toList ++ (pid_token ++ ".nettrace".toList) := by rfl
    rw [hsplit, replace_all_token_append_inert _ _ _ (by decide),
      replace_all_token_token_append,
      replace_all_token_of_no_token _ _ (by decide), List.append_assoc]

/-!
The quiescence handshake (C2)
-/

theorem qInv_init (n : Nat) (sid : EventPipeSessionID) : QInv sid (qInit n sid) := by
  refine ⟨?_, ?_, ?_, ?_, ?_, ?_, ?_, ?_, ?_⟩ <;> simp [qInit, QInv]

theorem qInv_step {n : Nat} (sid : EventPipeSessionID) {st st' : QuiesceState n}
    (hinv : QInv sid st) (hstep : QStep st st') : QInv sid st' := by
  obtain ⟨i1, i2, i3, i4, i5, i6, i7, i8, i9⟩ := hinv
  have hfreed_dpc : st.freed = true → st.dpc = .freedDone := by
    intro hf
    cases hd : st.dpc
    · exact absurd ((i1 hd).2.2) (by rw [hf]; exact Bool.noConfusion)
    · exact absurd ((i2 hd).2.2) (by rw [hf]; exact Bool.noConfusion)
    · exact absurd ((i3 hd).2.2) (by rw [hf]; exact Bool.noConfusion)
    · rfl
  cases hstep with
  | writerCheckSet =>
    rename_i t hpc hbit
    refine ⟨i1, i2, i3, i4, i5, ?_, ?_, ?_, ?_⟩
    · intro u hu
      by_cases huv : u = t
      · subst huv; simp
      · simp only [if_neg huv] at hu ⊢
        exact i6 u hu
    · intro u v hu
      by_cases huv : u = t
      · subst huv; simp at hu
      · simp only [if_neg huv] at hu
        exact i7 u v hu
    · intro u s hu
      by_cases huv : u = t
      · subst huv; simp at hu
      · simp only [if_neg huv] at hu
        exact i8 u s hu
    · intro hf u
      by_cases huv : u = t
      · subst huv; simp
      · simp only [if_neg huv]
        exact i9 hf u
  | writerCheckSkip =>
    exact ⟨i1, i2, i3, i4, i5, i6, i7, i8, i9⟩
  | writerLoad =>
    rename_i t hpc
    refine ⟨i1, i2, i3, i4, i5, ?_, ?_, ?_, ?_⟩
    · intro u hu
      by_cases huv : u = t
      · subst huv
        exact i6 u (by rw [hpc]; exact fun hx => WriterPc.noConfusion hx)
      · simp only [if_neg huv] at hu ⊢
        exact i6 u hu
    · intro u v hu
      by_cases huv : u = t
      · subst huv
        simp only [if_pos rfl] at hu
        have hslot : st.slot = some v := by
          injection hu
        rcases i5 with h5 | h5
        · rw [h5] at hslot
          exact (Option.some_inj.mp hslot).symm
        · rw [h5] at hslot
          exact Option.noConfusion hslot
      · simp only [if_neg huv] at hu
        exact i7 u v hu
    · intro u s hu
      by_cases huv : u = t
      · subst huv; simp at hu
      · simp only [if_neg huv] at hu
        exact i8 u s hu
    · intro hf u
      have hdpc := hfreed_dpc hf
      have hslot := (i4 hdpc).2
      by_cases huv : u = t
      · subst huv
        simp only [if_pos rfl, hslot]
        constructor
        · exact fun hx => Option.noConfusion (WriterPc.loaded.inj hx)
        · exact fun hx => WriterPc.noConfusion hx
      · simp only [if_neg huv]
        exact i9 hf u
  | writerWrite =>
    rename_i t s hpc
    have hsid : s = sid := i7 t s hpc
    refine ⟨i1, i2, i3, i4, i5, ?_, ?_, ?_, ?_⟩
    · intro u hu
      by_cases huv : u = t
      · subst huv
        exact i6 u (by rw [hpc]; exact fun hx => WriterPc.noConfusion hx)
      · simp only [if_neg huv] at hu ⊢
        exact i6 u hu
    · intro u v hu
      by_cases huv : u = t
      · subst huv; simp at hu
      · simp only [if_neg huv] at hu
        exact i7 u v hu
    · intro u s' hu
      by_cases huv : u = t
      · subst huv
        simp only [if_pos rfl] at hu
        rw [← WriterPc.writing.inj hu]
        exact hsid
      · simp only [if_neg huv] at hu
        exact i8 u s' hu
    · intro hf u
      exfalso
      subst hsid
      exact (i9 hf t).1 hpc
  | writerClearAfterWrite =>
    rename_i t s hpc
    refine ⟨i1, i2, i3, i4, i5, ?_, ?_, ?_, ?_⟩
    · intro u hu
      by_cases huv : u = t
      · subst huv; simp at hu
      · simp only [if_neg huv] at hu ⊢
        exact i6 u hu
    · intro u v hu
      by_cases huv : u = t
      · subst huv; simp at hu
      · simp only [if_neg huv] at hu
        exact i7 u v hu
    · intro u s' hu
      by_cases huv : u = t
      · subst huv; simp at hu
      · simp only [if_neg huv] at hu
        exact i8 u s' hu
    · intro hf u
      by_cases huv : u = t
      · subst huv; simp
      · simp only [if_neg huv]
        exact i9 hf u
  | writerClearAfterNull =>
    rename_i t hpc
    refine ⟨i1, i2, i3, i4, i5, ?_, ?_, ?_, ?_⟩
    · intro u hu
      by_cases huv : u = t
      · subst huv; simp at hu
      · simp only [if_neg huv] at hu ⊢
        exact i6 u hu
    · intro u v hu
      by_cases huv : u = t
      · subst huv; simp at hu
      · simp only [if_neg huv] at hu
        exact i7 u v hu
    · intro u s' hu
      by_cases huv : u = t
      · subst huv; simp at hu
      · simp only [if_neg huv] at hu
        exact i8 u s' hu
    · intro hf u
      by_cases huv : u = t
      · subst huv; simp
      · simp only [if_neg huv]
        exact i9 hf u
  | disableClearBit =>
    rename_i hpc
    have h1 := i1 hpc
    refine ⟨?_, ?_, ?_, ?_, i5, i6, i7, i8, i9⟩
    · intro h; exact absurd h (by simp)
    · intro _; exact ⟨rfl, h1.2.1, h1.2.2⟩
    · intro h; exact absurd h (by simp)
    · intro h; exact absurd h (by simp)
  | disableNullSlot =>
    rename_i hpc
    have h2 := i2 hpc
    refine ⟨?_, ?_, ?_, ?_, Or.inr rfl, i6, i7, i8, i9⟩
    · intro h; exact absurd h (by simp)
    · intro h; exact absurd h (by simp)
    · intro _; exact ⟨h2.1, rfl, h2.2.2⟩
    · intro h; exact absurd h (by simp)
  | disableFree =>
    rename_i hdq hqw
    have h3 := i3 hdq
    refine ⟨?_, ?_, ?_, ?_, i5, i6, i7, i8, ?_⟩
    · intro h; exact absurd h (by simp)
    · intro h; exact absurd h (by simp)
    · intro h; exact absurd h (by simp)
    · intro _; exact ⟨h3.1, h3.2.1⟩
    · intro _ u
      have hidle : st.wpc u = .idle := by
        by_contra hne
        have hw := i6 u hne
        rw [hqw u] at hw
        exact Bool.noConfusion hw
      rw [hidle]
      exact ⟨fun hx => WriterPc.noConfusion hx, fun hx => WriterPc.noConfusion hx⟩

theorem qInv_reachable (n : Nat) (sid : EventPipeSessionID) (st : QuiesceState n)
    (h : Relation.ReflTransGen QStep (qInit n sid) st) : QInv sid st := by
  induction h with
  | refl => exact qInv_init n sid
  | tail hab hbc ih => exact qInv_step sid ih hbc

/-- **C2**: for every interleaving of `n` writer threads running the
`write_event_2` fan-out handshake against one `disable_holding_lock`, a writer
that set its per-thread write-in-progress marker and then re-read a non-null
session pointer (or is writing into it) holds a not-yet-freed session:
`disable` clears the bit and nulls the slot before waiting for every marker to
clear, and frees only after that wait, so in every reachable state a loaded
non-null pointer or in-progress write implies the session is not freed. -/
theorem claim_C2_no_write_after_free (n : Nat) (sid : EventPipeSessionID) (st : QuiesceState n)
    (hreach : Relation.ReflTransGen QStep (qInit n sid) st)
    (t : Fin n) (s : EventPipeSessionID)
    (h : st.wpc t = .loaded (some s) ∨ st.wpc t = .writing s) :
    st.freed = false := by
  obtain ⟨i1, i2, i3, i4, i5, i6, i7, i8, i9⟩ := qInv_reachable n sid st hreach
  cases hfreed : st.freed with
  | false => rfl
  | true =>
    exfalso
    rcases h with h | h
    · have hs := i7 t s h
      subst hs
      exact (i9 hfreed t).1 h
    · have hs := i8 t s h
      subst hs
      exact (i9 hfreed t).2 h

/-- Witness for C2: one writer that marked slot 0 and re-read the published
session pointer, before the disabler moved — the session is not freed. -/
theorem claim_C2_witness : qMid2.freed = false :=
  claim_C2_no_write_after_free 1 1 qMid2
    (Relation.ReflTransGen.tail
      (Relation.ReflTransGen.tail Relation.ReflTransGen.refl
        (QStep.writerCheckSet 0 (qInit 1 1) rfl rfl))
      (QStep.writerLoad 0 qMid1 rfl))
    0 1 (Or.inl rfl)

end EventPipe
